import Mathlib

/-!
Verification of the timeline-synthesis and resampling logic of the
Automated-air-purifier repository (`air_quality_analysis.py` and
`air_quality_analysis_gsheets.py`).

The timestamp index assignment (`pd.date_range(start=start_time,
periods=time_intervals, freq=...)` guarded by `time_intervals <= 1440`),
the 1-minute resampling (`df.resample('T').mean()`), the Google-Sheets
export (`export_stats_to_google_sheet`) and the missing-file branch of the
gsheets variant are embedded below as pure Lean functions.  Instants are
measured in whole seconds (a `Nat`); observation values are rationals.
-/

namespace AirQuality

/-- Python runtime errors that the embedded fragments can raise.
`invalidInputError` is the explicit failure the spec's error taxonomy
prescribes for non-positive counts; the scripts themselves never raise it. -/
inductive PyError where
  | zeroDivisionError
  | nameError
  | fileNotFoundError
  | invalidInputError
deriving Repr, DecidableEq

/-- One sensor observation: the two numeric columns of the dataset
(oxygen concentration and AQI). -/
structure Obs where
  o2 : ℚ
  aqi : ℚ
deriving Repr, DecidableEq

/-- `datetime.now().replace(hour=0, minute=0, second=0, microsecond=0)`:
the midnight preceding the wall clock instant `now` (seconds). -/
def startTime (now : Nat) : Nat := now - now % 86400

/-- `minutes_per_interval = max(1, 1440 // time_intervals)` (line 30 /
line 94).  Division by zero is handled by the caller. -/
def minutesPerInterval (count : Nat) : Nat := max 1 (1440 / count)

/-- `seconds_per_interval = max(1, 86400 // time_intervals)` (line 34 /
line 98). -/
def secondsPerInterval (count : Nat) : Nat := max 1 (86400 / count)

/-- The spacing, in seconds, between consecutive synthesized instants:
whole minutes when `count ≤ 1440`, whole seconds otherwise. -/
def intervalSeconds (count : Nat) : Nat :=
  if count ≤ 1440 then 60 * minutesPerInterval count else secondsPerInterval count

/-- `pd.date_range(start, periods=count, freq=step)`: `count` instants
starting at `start`, `step` seconds apart. -/
def dateRange (start step count : Nat) : List Nat :=
  (List.range count).map (fun i => start + step * i)

/-- The index synthesis of `analyze_air_quality_data` (lines 26-35 /
90-99): choose a granularity from the observation count and emit one
instant per observation.  With `count = 0` the Python expression
`1440 // time_intervals` raises `ZeroDivisionError`, which the embedding
makes explicit. -/
def synthesizeTimeline (count epoch : Nat) : Except PyError (List Nat) :=
  if count = 0 then .error .zeroDivisionError
  else .ok (dateRange epoch (intervalSeconds count) count)

/-- The 1-minute bucket an instant falls into (pandas `resample('T')`
bins are aligned to whole minutes). -/
def bucketOf (t : Nat) : Nat := t / 60

/-- The observations of `series` whose timestamp falls in bucket `b`. -/
def obsInBucket (series : List (Nat × Obs)) (b : Nat) : List Obs :=
  (series.filter (fun p => bucketOf p.1 = b)).map Prod.snd

/-- Column-wise arithmetic mean; `none` is pandas' NaN for an empty
bucket. -/
def meanObs (l : List Obs) : Option Obs :=
  match l with
  | [] => none
  | _ => some ⟨(l.map Obs.o2).sum / l.length, (l.map Obs.aqi).sum / l.length⟩

/-- `df.resample('T').mean()` (line 54 / line 119): pandas emits one row
for every 1-minute bin from the floor of the smallest timestamp to the
floor of the largest, labelling each bin by its start and averaging the
observations that fall in it (NaN when the bin is empty).  An empty frame
resamples to an empty frame. -/
def resampleT (series : List (Nat × Obs)) : List (Nat × Option Obs) :=
  match (series.map Prod.fst).min?, (series.map Prod.fst).max? with
  | some tmin, some tmax =>
      (List.range (bucketOf tmax + 1 - bucketOf tmin)).map fun i =>
        (60 * (bucketOf tmin + i), meanObs (obsInBucket series (bucketOf tmin + i)))
  | _, _ => []

/-- The timestamped series the scripts build: row `i` of the dataframe
receives the `i`-th synthesized instant (`df.index = pd.date_range(...)`). -/
def analyzeTimeline (now : Nat) (data : List Obs) : Except PyError (List (Nat × Obs)) :=
  (synthesizeTimeline data.length (startTime now)).map (fun tl => tl.zip data)

/-- The resampled view derived from the timestamped series
(`df_resampled = df.resample('T').mean()`). -/
def analyzeResampled (now : Nat) (data : List Obs) :
    Except PyError (List (Nat × Option Obs)) :=
  (analyzeTimeline now data).map resampleT

/-- A series at exact 1-minute cadence: observation `i` carries timestamp
`t0 + 60 * i`. -/
def minuteSeries (t0 : Nat) : List Obs → List (Nat × Obs)
  | [] => []
  | d :: ds => (t0, d) :: minuteSeries (t0 + 60) ds

/-- A worksheet's cell contents, row-major. -/
abbrev Grid := List (List String)

/-- A spreadsheet: worksheets keyed by title (gspread titles are unique). -/
abbrev Sheets := List (String × Grid)

/-- `sheet.update(range_name='A1', values=vals)`: overlay `vals` onto the
existing grid starting at cell A1; cells outside the written range keep
their previous contents. -/
def overlayRow (old new : List String) : List String :=
  new ++ old.drop new.length

def overlayGrid : Grid → Grid → Grid
  | old, [] => old
  | [], new => new
  | o :: os, n :: ns => overlayRow o n :: overlayGrid os ns

/-- Replace the grid of every worksheet titled `title`. -/
def setWorksheet (ss : Sheets) (title : String) (g : Grid) : Sheets :=
  ss.map (fun p => if p.1 = title then (title, g) else p)

def summaryTitle : String := "Statistical Summary"

/-- `export_stats_to_google_sheet` (lines 32-51 of the gsheets script),
restricted to its effect on the destination spreadsheet: fetch the
worksheet `Statistical Summary`, creating an empty one when it is absent
(`add_worksheet`), then `sheet.clear()` followed by
`sheet.update(range_name='A1', values=[header] + data)`. -/
def exportStats (table : Grid) (ss : Sheets) : Sheets :=
  let ss1 := if ss.any (fun p => p.1 = summaryTitle) then ss
             else ss ++ [(summaryTitle, [])]
  setWorksheet ss1 summaryTitle (overlayGrid ([] : Grid) table)

/-- `analyze_air_quality_data` of the gsheets variant, lines 81-99,
restricted to dataflow: `df` is bound only when `pd.read_excel` succeeds;
on `FileNotFoundError` the except branch merely prints a warning, so the
following `len(df)` raises `NameError`.  Returns the console log and
either the timestamped series or the error that aborts the run. -/
def analyzeGS (filePath : String) (fileData : Option (List Obs)) (now : Nat) :
    List String × Except PyError (List (Nat × Obs)) :=
  match fileData with
  | some data =>
      (["Successfully loaded data from '" ++ filePath ++ "'."],
       (synthesizeTimeline data.length (startTime now)).map (fun tl => tl.zip data))
  | none =>
      (["Warning: File '" ++ filePath ++ "' not found. Generating sample data."],
       .error .nameError)

/-- A concrete series with a gap: observations at second 0 and second 120,
nothing in the bucket starting at second 60. -/
def series4 : List (Nat × Obs) := [(0, ⟨1, 2⟩), (120, ⟨3, 4⟩)]

/- ------------------------------------------------------------------ -/
/- Helper lemmas                                                      -/
/- ------------------------------------------------------------------ -/

lemma dateRange_length (s st n : Nat) : (dateRange s st n).length = n := by
  simp [dateRange]

lemma dateRange_getElem? (s st n i : Nat) (h : i < n) :
    (dateRange s st n)[i]? = some (s + st * i) := by
  simp [dateRange, List.getElem?_map, List.getElem?_range h]

lemma dateRange_pairwise (s st n : Nat) (h : 0 < st) :
    (dateRange s st n).Pairwise (· < ·) := by
  unfold dateRange
  refine List.Pairwise.map _ (fun a b hab => ?_) (List.pairwise_lt_range n)
  exact Nat.add_lt_add_left (mul_lt_mul_of_pos_left hab h) s

lemma intervalSeconds_pos (count : Nat) : 0 < intervalSeconds count := by
  unfold intervalSeconds minutesPerInterval secondsPerInterval
  have h1 : (1 : Nat) ≤ max 1 (1440 / count) := le_max_left _ _
  have h2 : (1 : Nat) ≤ max 1 (86400 / count) := le_max_left _ _
  split <;> omega

lemma nat_min?_iff {a : Nat} {xs : List Nat} :
    xs.min? = some a ↔ a ∈ xs ∧ ∀ b ∈ xs, a ≤ b :=
  List.min?_eq_some_iff (fun _ => le_refl _) (fun x y => min_choice x y)
    (fun _ _ _ => le_min_iff)

lemma nat_max?_iff {a : Nat} {xs : List Nat} :
    xs.max? = some a ↔ a ∈ xs ∧ ∀ b ∈ xs, b ≤ a :=
  List.max?_eq_some_iff (fun _ => le_refl _) (fun x y => max_choice x y)
    (fun _ _ _ => max_le_iff)

lemma dateRange_succ (s st n : Nat) :
    dateRange s st (n + 1) = s :: dateRange (s + st) st n := by
  unfold dateRange
  rw [List.range_succ_eq_map, List.map_cons, List.map_map]
  refine congrArg₂ _ (by simp) (List.map_congr_left fun i _ => ?_)
  simp only [Function.comp, Nat.succ_eq_add_one]
  ring

lemma dateRange_min? (s st n : Nat) (hn : 0 < n) :
    (dateRange s st n).min? = some s := by
  rw [nat_min?_iff]
  constructor
  · simp only [dateRange, List.mem_map, List.mem_range]
    exact ⟨0, hn, by simp⟩
  · intro b hb
    simp only [dateRange, List.mem_map, List.mem_range] at hb
    obtain ⟨i, _, rfl⟩ := hb
    exact Nat.le_add_right _ _

lemma dateRange_max? (s st n : Nat) (hn : 0 < n) :
    (dateRange s st n).max? = some (s + st * (n - 1)) := by
  rw [nat_max?_iff]
  constructor
  · simp only [dateRange, List.mem_map, List.mem_range]
    exact ⟨n - 1, by omega, rfl⟩
  · intro b hb
    simp only [dateRange, List.mem_map, List.mem_range] at hb
    obtain ⟨i, hi, rfl⟩ := hb
    exact Nat.add_le_add_left (Nat.mul_le_mul_left st (by omega)) s

lemma bucketOf_add_mul (t0 k : Nat) : bucketOf (t0 + 60 * k) = bucketOf t0 + k := by
  unfold bucketOf
  rw [Nat.mul_comm, Nat.add_mul_div_right _ _ (by norm_num)]

lemma minuteSeries_map_fst (t0 : Nat) (data : List Obs) :
    (minuteSeries t0 data).map Prod.fst = dateRange t0 60 data.length := by
  induction data generalizing t0 with
  | nil => rfl
  | cons d ds ih => simp [minuteSeries, List.length_cons, dateRange_succ, ih]

lemma zip_dateRange (t0 : Nat) (data : List Obs) :
    (dateRange t0 60 data.length).zip data = minuteSeries t0 data := by
  induction data generalizing t0 with
  | nil => rfl
  | cons d ds ih =>
    rw [List.length_cons, dateRange_succ, List.zip_cons_cons, ih, minuteSeries]

lemma obsInBucket_cons (p : Nat × Obs) (rest : List (Nat × Obs)) (b : Nat) :
    obsInBucket (p :: rest) b =
      (if bucketOf p.1 = b then [p.2] else []) ++ obsInBucket rest b := by
  unfold obsInBucket
  rw [List.filter_cons]
  by_cases h : bucketOf p.1 = b <;> simp [h]

lemma obsInBucket_minuteSeries_lt (data : List Obs) (t0 b : Nat)
    (h : b < bucketOf t0) : obsInBucket (minuteSeries t0 data) b = [] := by
  induction data generalizing t0 with
  | nil => rfl
  | cons d ds ih =>
    rw [minuteSeries, obsInBucket_cons, if_neg (show ¬bucketOf t0 = b by omega),
      List.nil_append]
    refine ih (t0 + 60) ?_
    unfold bucketOf at h ⊢
    rw [Nat.add_div_right _ (by norm_num)]
    omega

lemma obsInBucket_minuteSeries (data : List Obs) (t0 i : Nat) :
    obsInBucket (minuteSeries t0 data) (bucketOf t0 + i) = (data[i]?).toList := by
  induction data generalizing t0 i with
  | nil => simp [minuteSeries, obsInBucket]
  | cons d ds ih =>
    rw [minuteSeries, obsInBucket_cons]
    cases i with
    | zero =>
      rw [if_pos (show bucketOf t0 = bucketOf t0 + 0 by omega)]
      have hnil : obsInBucket (minuteSeries (t0 + 60) ds) (bucketOf t0) = [] := by
        refine obsInBucket_minuteSeries_lt ds (t0 + 60) _ ?_
        unfold bucketOf
        rw [Nat.add_div_right _ (by norm_num)]
        omega
      simp [hnil]
    | succ j =>
      rw [if_neg (show ¬bucketOf t0 = bucketOf t0 + (j + 1) by omega), List.nil_append]
      have hb : bucketOf t0 + (j + 1) = bucketOf (t0 + 60) + j := by
        unfold bucketOf
        rw [Nat.add_div_right _ (by norm_num)]
        omega
      rw [hb, ih]
      simp

lemma meanObs_toList (o : Option Obs) : meanObs o.toList = o := by
  cases o with
  | none => rfl
  | some x => simp [meanObs]

lemma resampleT_minuteSeries (t0 : Nat) (data : List Obs) :
    resampleT (minuteSeries t0 data) =
      (List.range data.length).map (fun i => (60 * (bucketOf t0 + i), data[i]?)) := by
  cases data with
  | nil => rfl
  | cons d ds =>
    unfold resampleT
    rw [minuteSeries_map_fst, List.length_cons,
      dateRange_min? _ _ _ (by omega), dateRange_max? _ _ _ (by omega),
      Nat.add_sub_cancel]
    dsimp only
    rw [bucketOf_add_mul]
    have hcount : bucketOf t0 + ds.length + 1 - bucketOf t0 = ds.length + 1 := by omega
    rw [hcount]
    refine List.map_congr_left fun i _ => ?_
    rw [obsInBucket_minuteSeries, meanObs_toList]

lemma map_getElem?_range (data : List Obs) :
    (List.range data.length).map (fun i => data[i]?) = data.map some := by
  induction data with
  | nil => rfl
  | cons x xs ih =>
    rw [List.length_cons, List.range_succ_eq_map, List.map_cons, List.map_map,
      List.map_cons]
    refine congrArg₂ _ (by simp) ?_
    rw [← ih]
    refine List.map_congr_left fun i _ => ?_
    simp [Function.comp, Nat.succ_eq_add_one]

lemma resample_minuteSeries_snd (t0 : Nat) (data : List Obs) :
    (resampleT (minuteSeries t0 data)).map Prod.snd = data.map some := by
  rw [resampleT_minuteSeries, List.map_map]
  have : (Prod.snd ∘ fun i => ((60 * (bucketOf t0 + i), data[i]?) : Nat × Option Obs)) =
      fun i => data[i]? := rfl
  rw [this, map_getElem?_range]

lemma setWorksheet_setWorksheet (ss : Sheets) (t : String) (g : Grid) :
    setWorksheet (setWorksheet ss t g) t g = setWorksheet ss t g := by
  unfold setWorksheet
  rw [List.map_map]
  refine List.map_congr_left fun p _ => ?_
  by_cases h : p.1 = t <;> simp [Function.comp, h]

lemma exportStats_of_has (table : Grid) (ss : Sheets)
    (h : ss.any (fun p => p.1 = summaryTitle) = true) :
    exportStats table ss = setWorksheet ss summaryTitle (overlayGrid [] table) := by
  unfold exportStats
  rw [if_pos h]

lemma export_has_title (table : Grid) (ss : Sheets) :
    (exportStats table ss).any (fun p => p.1 = summaryTitle) = true := by
  unfold exportStats setWorksheet
  rw [List.any_eq_true]
  by_cases h : ss.any (fun p => p.1 = summaryTitle) = true
  · rw [if_pos h]
    rw [List.any_eq_true] at h
    obtain ⟨q, hq, hq1⟩ := h
    rw [decide_eq_true_eq] at hq1
    exact ⟨_, List.mem_map_of_mem _ hq, by simp [hq1]⟩
  · rw [if_neg h]
    have hmem : (summaryTitle, ([] : Grid)) ∈ ss ++ [(summaryTitle, ([] : Grid))] := by simp
    exact ⟨_, List.mem_map_of_mem _ hmem, by simp⟩

/- ------------------------------------------------------------------ -/
/- Claims                                                             -/
/- ------------------------------------------------------------------ -/

/-- C3, counterexample: with zero observations the synthesis propagates
the division-by-zero arithmetic fault of `1440 // 0`; it does not raise
the spec's `InvalidInputError`. -/
theorem c3_counter :
    synthesizeTimeline 0 0 = .error .zeroDivisionError ∧
    synthesizeTimeline 0 0 ≠ .error .invalidInputError := by
  refine ⟨rfl, fun h => ?_⟩
  exact absurd (Except.error.inj h) (by decide)

/-- C3, amended: for `count = 0` the timeline synthesis fails, but by
propagating the `ZeroDivisionError` from `1440 // time_intervals` rather
than by raising an explicit `InvalidInputError`. -/
theorem c3_amended (epoch : Nat) :
    synthesizeTimeline 0 epoch = .error .zeroDivisionError := rfl

/-- C7: resampling an empty timestamped series yields an empty result,
not an error. -/
theorem c7_resample_empty : resampleT [] = [] := rfl

/-- C8: the synthesis and the resampler are pure: once the epoch (the
midnight derived from the wall clock) and the observation sequence are
fixed, two runs — even at different wall-clock instants — produce the
same timestamped series and the same resampled series. -/
theorem c8_pure (now1 now2 : Nat) (data : List Obs)
    (h : startTime now1 = startTime now2) :
    analyzeTimeline now1 data = analyzeTimeline now2 data ∧
    analyzeResampled now1 data = analyzeResampled now2 data := by
  unfold analyzeResampled analyzeTimeline
  rw [h]
  exact ⟨rfl, rfl⟩

theorem c8_pure_witness :
    startTime 86401 = startTime 86402 ∧
    (analyzeTimeline 86401 [⟨1, 2⟩] = analyzeTimeline 86402 [⟨1, 2⟩] ∧
     analyzeResampled 86401 [⟨1, 2⟩] = analyzeResampled 86402 [⟨1, 2⟩]) :=
  ⟨by decide, c8_pure 86401 86402 [⟨1, 2⟩] (by decide)⟩

/-- C10: in the gsheets variant, when reading the file fails the except
branch prints the sample-data warning but binds no dataframe, and the run
then aborts with `NameError` at `len(df)`: the analysis never completes. -/
theorem c10_missing_file (path : String) (now : Nat) :
    analyzeGS path none now =
      (["Warning: File '" ++ path ++ "' not found. Generating sample data."],
       .error .nameError) := rfl

/-- C4, counterexample: resampling observations at second 0 and second
120 emits the row `(60, NaN)` even though its bucket holds no
observation — pandas does not drop empty buckets. -/
theorem c4_counter :
    ((60, (none : Option Obs)) ∈ resampleT series4) ∧
    obsInBucket series4 (bucketOf 60) = [] := by
  exact ⟨by decide, by decide⟩

/-- C4, amended: output rows are in strictly ascending bucket start-time
order (hence no two share a bucket); each row's value is exactly the
mean of its bucket's observations — `NaN` (no row value) for an empty
bucket, never a forward-filled or interpolated value; and the output is
complete: one row for every 1-minute bucket from the bucket of the
earliest timestamp to the bucket of the latest, a bucket containing zero
observations yielding a `NaN` row rather than no row. -/
theorem c4_amended (series : List (Nat × Obs)) :
    (resampleT series).Pairwise (fun r s => r.1 < s.1) ∧
    (∀ r ∈ resampleT series, r.2 = meanObs (obsInBucket series (bucketOf r.1))) ∧
    ∀ tmin tmax, (series.map Prod.fst).min? = some tmin →
      (series.map Prod.fst).max? = some tmax →
      (resampleT series).length = bucketOf tmax + 1 - bucketOf tmin ∧
      ∀ b, bucketOf tmin ≤ b → b ≤ bucketOf tmax →
        (60 * b, meanObs (obsInBucket series b)) ∈ resampleT series := by
  unfold resampleT
  cases hmin : (series.map Prod.fst).min? with
  | none =>
    refine ⟨by simp, by simp, ?_⟩
    intro tmin tmax h1 h2
    exact absurd h1 (by simp)
  | some tmin =>
    cases hmax : (series.map Prod.fst).max? with
    | none =>
      refine ⟨by simp, by simp, ?_⟩
      intro tmin' tmax' h1 h2
      exact absurd h2 (by simp)
    | some tmax =>
      refine ⟨?_, ?_, ?_⟩
      · refine List.Pairwise.map _ (fun a b hab => ?_) (List.pairwise_lt_range _)
        simpa using Nat.add_lt_add_left hab (bucketOf tmin)
      · intro r hr
        rw [List.mem_map] at hr
        obtain ⟨i, _, rfl⟩ := hr
        have : bucketOf (60 * (bucketOf tmin + i)) = bucketOf tmin + i := by
          unfold bucketOf
          exact Nat.mul_div_cancel_left _ (by norm_num)
        rw [this]
      · intro tmin' tmax' h1 h2
        obtain rfl : tmin = tmin' := Option.some.inj h1
        obtain rfl : tmax = tmax' := Option.some.inj h2
        refine ⟨by simp, ?_⟩
        intro b hb1 hb2
        rw [List.mem_map]
        refine ⟨b - bucketOf tmin, ?_, ?_⟩
        · rw [List.mem_range]
          omega
        · have hb : bucketOf tmin + (b - bucketOf tmin) = b := by omega
          rw [hb]

theorem c4_amended_witness :
    (series4.map Prod.fst).min? = some 0 ∧
    (series4.map Prod.fst).max? = some 120 ∧
    bucketOf 0 ≤ 1 ∧ 1 ≤ bucketOf 120 ∧
    (60 * 1, meanObs (obsInBucket series4 1)) ∈ resampleT series4 :=
  ⟨by decide, by decide, by decide, by decide,
   ((c4_amended series4).2.2 0 120 (by decide) (by decide)).2 1 (by decide) (by decide)⟩

/-- C1: for `1 ≤ count ≤ 1440` the synthesis succeeds with exactly
`count` instants, strictly increasing, the first equal to the epoch, and
consecutive instants `max(1, 1440 / count)` minutes apart: no
observation is dropped and no timestamp duplicated. -/
theorem c1_minute_synthesis (count epoch : Nat) (h1 : 1 ≤ count) (h2 : count ≤ 1440) :
    ∃ tl, synthesizeTimeline count epoch = .ok tl ∧
      tl.length = count ∧
      tl[0]? = some epoch ∧
      tl.Pairwise (· < ·) ∧
      ∀ i, i + 1 < count → tl[i + 1]? = tl[i]?.map (· + 60 * max 1 (1440 / count)) := by
  have hstep : intervalSeconds count = 60 * max 1 (1440 / count) := by
    unfold intervalSeconds minutesPerInterval
    rw [if_pos h2]
  refine ⟨dateRange epoch (intervalSeconds count) count, ?_, dateRange_length .., ?_, ?_, ?_⟩
  · unfold synthesizeTimeline
    rw [if_neg (by omega)]
  · rw [dateRange_getElem? _ _ _ 0 (by omega)]
    simp
  · exact dateRange_pairwise _ _ _ (intervalSeconds_pos count)
  · intro i hi
    rw [dateRange_getElem? _ _ _ (i + 1) (by omega), dateRange_getElem? _ _ _ i (by omega)]
    rw [Option.map_some', hstep]
    congr 1
    ring

theorem c1_minute_synthesis_witness :
    1 ≤ 3 ∧ 3 ≤ 1440 ∧
    ∃ tl, synthesizeTimeline 3 7 = .ok tl ∧
      tl.length = 3 ∧
      tl[0]? = some 7 ∧
      tl.Pairwise (· < ·) ∧
      ∀ i, i + 1 < 3 → tl[i + 1]? = tl[i]?.map (· + 60 * max 1 (1440 / 3)) :=
  ⟨by decide, by decide, c1_minute_synthesis 3 7 (by decide) (by decide)⟩

/-- C2: for `count > 1440` the synthesis succeeds with exactly `count`
strictly increasing instants starting at the epoch, spaced
`max(1, 86400 / count)` seconds; concretely for `count = 2000` the
spacing is 43 seconds and the span `1999 * 43` seconds falls short of
24 hours. -/
theorem c2_second_synthesis :
    (∀ count epoch, 1440 < count →
      ∃ tl, synthesizeTimeline count epoch = .ok tl ∧
        tl.length = count ∧
        tl[0]? = some epoch ∧
        tl.Pairwise (· < ·) ∧
        ∀ i, i + 1 < count → tl[i + 1]? = tl[i]?.map (· + max 1 (86400 / count))) ∧
    secondsPerInterval 2000 = 43 ∧
    (∃ tl, synthesizeTimeline 2000 0 = .ok tl ∧ tl.length = 2000 ∧
      tl[1999]? = some (1999 * 43) ∧ 1999 * 43 < 86400) := by
  have hsec : ∀ count : Nat, 1440 < count →
      intervalSeconds count = max 1 (86400 / count) := by
    intro count hc
    unfold intervalSeconds secondsPerInterval
    rw [if_neg (by omega)]
  refine ⟨?_, by norm_num [secondsPerInterval], ?_⟩
  · intro count epoch hc
    refine ⟨dateRange epoch (intervalSeconds count) count, ?_, dateRange_length .., ?_, ?_, ?_⟩
    · unfold synthesizeTimeline
      rw [if_neg (by omega)]
    · rw [dateRange_getElem? _ _ _ 0 (by omega)]
      simp
    · exact dateRange_pairwise _ _ _ (intervalSeconds_pos count)
    · intro i hi
      rw [dateRange_getElem? _ _ _ (i + 1) (by omega), dateRange_getElem? _ _ _ i (by omega)]
      rw [Option.map_some', hsec count hc]
      congr 1
      ring
  · have h43 : intervalSeconds 2000 = 43 := by norm_num [intervalSeconds, secondsPerInterval]
    refine ⟨dateRange 0 (intervalSeconds 2000) 2000, ?_, dateRange_length .., ?_, by norm_num⟩
    · unfold synthesizeTimeline
      rw [if_neg (by omega)]
    · rw [dateRange_getElem? _ _ _ 1999 (by omega), h43]

/-- C6: resampling is idempotent on input already at 1-minute cadence:
a series whose timestamps sit one per minute resamples to one bucket per
observation with exactly the original values (mean of a singleton is the
identity). -/
theorem c6_resample_idempotent (t0 : Nat) (data : List Obs) :
    (resampleT (minuteSeries t0 data)).length = data.length ∧
    (resampleT (minuteSeries t0 data)).map Prod.snd = data.map some := by
  refine ⟨?_, resample_minuteSeries_snd t0 data⟩
  rw [resampleT_minuteSeries]
  simp

/-- C5: with exactly 1440 observations the synthesizer emits 1440
instants one minute apart starting at the epoch, and 1-minute resampling
of that series yields 1440 buckets, each holding exactly one observation,
whose values equal the raw values exactly. -/
theorem c5_full_day (now : Nat) (data : List Obs) (h : data.length = 1440) :
    ∃ tl, synthesizeTimeline 1440 (startTime now) = .ok tl ∧
      tl.length = 1440 ∧
      tl[0]? = some (startTime now) ∧
      (∀ i, i + 1 < 1440 → tl[i + 1]? = tl[i]?.map (· + 60)) ∧
      (resampleT (tl.zip data)).length = 1440 ∧
      (∀ r ∈ resampleT (tl.zip data),
        (obsInBucket (tl.zip data) (bucketOf r.1)).length = 1) ∧
      (resampleT (tl.zip data)).map Prod.snd = data.map some := by
  set epoch := startTime now with hepoch
  have hstep : intervalSeconds 1440 = 60 := by
    norm_num [intervalSeconds, minutesPerInterval]
  have hzip : (dateRange epoch 60 1440).zip data = minuteSeries epoch data := by
    rw [← h, zip_dateRange]
  refine ⟨dateRange epoch 60 1440, ?_, dateRange_length .., ?_, ?_, ?_, ?_, ?_⟩
  · unfold synthesizeTimeline
    rw [if_neg (by omega), hstep]
  · rw [dateRange_getElem? _ _ _ 0 (by omega)]
    simp
  · intro i hi
    rw [dateRange_getElem? _ _ _ (i + 1) (by omega), dateRange_getElem? _ _ _ i (by omega)]
    rw [Option.map_some']
    congr 1
  · rw [hzip, resampleT_minuteSeries]
    simp [h]
  · intro r hr
    rw [hzip] at hr ⊢
    rw [resampleT_minuteSeries] at hr
    rw [List.mem_map] at hr
    obtain ⟨i, hi, rfl⟩ := hr
    rw [List.mem_range, h] at hi
    have hbkt : bucketOf (60 * (bucketOf epoch + i)) = bucketOf epoch + i := by
      unfold bucketOf
      exact Nat.mul_div_cancel_left _ (by norm_num)
    rw [hbkt, obsInBucket_minuteSeries]
    have : i < data.length := by omega
    rw [List.getElem?_eq_getElem this]
    rfl
  · rw [hzip]
    exact resample_minuteSeries_snd epoch data

theorem c5_full_day_witness :
    (List.replicate 1440 (⟨1, 2⟩ : Obs)).length = 1440 ∧
    ∃ tl, synthesizeTimeline 1440 (startTime 0) = .ok tl ∧
      tl.length = 1440 ∧
      tl[0]? = some (startTime 0) ∧
      (∀ i, i + 1 < 1440 → tl[i + 1]? = tl[i]?.map (· + 60)) ∧
      (resampleT (tl.zip (List.replicate 1440 (⟨1, 2⟩ : Obs)))).length = 1440 ∧
      (∀ r ∈ resampleT (tl.zip (List.replicate 1440 (⟨1, 2⟩ : Obs))),
        (obsInBucket (tl.zip (List.replicate 1440 (⟨1, 2⟩ : Obs))) (bucketOf r.1)).length = 1) ∧
      (resampleT (tl.zip (List.replicate 1440 (⟨1, 2⟩ : Obs)))).map Prod.snd =
        (List.replicate 1440 (⟨1, 2⟩ : Obs)).map some :=
  ⟨by rw [List.length_replicate], c5_full_day 0 (List.replicate 1440 ⟨1, 2⟩)
    (by rw [List.length_replicate])⟩

/-- C9: the spreadsheet export clears the destination worksheet and then
writes the summary table, so running it twice leaves the destination in
the same final state as running it once — content is overwritten, never
accumulated. -/
theorem c9_export_idempotent (table : Grid) (ss : Sheets) :
    exportStats table (exportStats table ss) = exportStats table ss := by
  rw [exportStats_of_has table _ (export_has_title table ss)]
  unfold exportStats
  exact setWorksheet_setWorksheet _ _ _

theorem c2_second_synthesis_witness :
    1440 < 1441 ∧
    ∃ tl, synthesizeTimeline 1441 0 = .ok tl ∧
      tl.length = 1441 ∧
      tl[0]? = some 0 ∧
      tl.Pairwise (· < ·) ∧
      ∀ i, i + 1 < 1441 → tl[i + 1]? = tl[i]?.map (· + max 1 (86400 / 1441)) :=
  ⟨by decide, c2_second_synthesis.1 1441 0 (by decide)⟩

end AirQuality
